import Mathlib

/-
Verification of the hive Python bridge (src/hive.py): a parent process that
drives a Node.js child over a line-delimited JSON protocol on stdin/stdout.
The Python values crossing the boundary, the json.dumps / json.loads calls,
and the methods of class Hive are embedded as executable Lean definitions;
the per-call environment (poll result, pipe state, response line) is passed
explicitly.
-/

set_option maxHeartbeats 1000000

namespace HiveBridge

/-- Python runtime values that can appear in the command and response
envelopes. `obj` stands for any Python object with no JSON representation
(json.dumps raises TypeError on it). Numbers are modelled as integers. -/
inductive PyVal where
| none : PyVal
| bool : Bool → PyVal
| int : Int → PyVal
| str : String → PyVal
| list : List PyVal → PyVal
| dict : List (String × PyVal) → PyVal
| obj : Nat → PyVal

/-- Python truthiness, as used by `args or \x7b\x7d` and `if response.get("error"):`
in hive.py. -/
def truthy : PyVal → Bool
| .none => false
| .bool b => b
| .int n => n != 0
| .str s => !s.isEmpty
| .list xs => !xs.isEmpty
| .dict fs => !fs.isEmpty
| .obj _ => true

/-- Drop leading JSON whitespace. -/
def skipWs : List Char → List Char
| [] => []
| c :: rest => if c = ' ' || c = '\n' || c = '\t' || c = '\r' then skipWs rest else c :: rest

/-- Escaping of one character inside a JSON string literal, as json.dumps
performs it (the escapes that matter for framing; other characters are kept). -/
def escapeChar (c : Char) : String :=
  if c = '"' then "\\\""
  else if c = '\\' then "\\\\"
  else if c = '\n' then "\\n"
  else if c = '\r' then "\\r"
  else if c = '\t' then "\\t"
  else if c = '\x08' then "\\b"
  else if c = '\x0c' then "\\f"
  else String.singleton c

/-- Concatenation of a list of strings. -/
def concatAll : List String → String
| [] => ""
| s :: rest => s ++ concatAll rest

/-- Serialization of a JSON string literal: quote, escape each character, quote. -/
def serializeStr (s : String) : String :=
  "\"" ++ concatAll (s.data.map escapeChar) ++ "\""

/-- Character for the decimal digit d (d < 10). -/
def digitChar (d : Nat) : Char := Char.ofNat (48 + d % 10)

/-- Decimal digits of a natural number, most significant first (fuel-driven). -/
def natDigits : Nat → Nat → List Char
| 0, _ => []
| f + 1, n => if n < 10 then [digitChar n] else natDigits f (n / 10) ++ [digitChar (n % 10)]

/-- Decimal rendering of a natural number. -/
def natToStr (n : Nat) : String := String.mk (natDigits (n + 1) n)

/-- Decimal rendering of an integer, as json.dumps renders Python ints. -/
def intToStr : Int → String :=
  fun n => if n < 0 then "-" ++ natToStr (-n).toNat else natToStr n.toNat

/-- Join strings with the ", " separator used by json.dumps defaults. -/
def joinComma : List String → String
| [] => ""
| [s] => s
| s :: rest => s ++ ", " ++ joinComma rest

mutual

/-- Model of Python json.dumps on a PyVal: returns the serialized text, or
Option.none when the value has no JSON representation (Python raises
TypeError then). Default separators (", " and ": ") are used, as hive.py
calls json.dumps with no options. -/
def dumps : PyVal → Option String
| .none => some "null"
| .bool true => some "true"
| .bool false => some "false"
| .int n => some (intToStr n)
| .str s => some (serializeStr s)
| .list xs =>
  match dumpsElems xs with
  | some parts => some ("[" ++ joinComma parts ++ "]")
  | Option.none => Option.none
| .dict fs =>
  match dumpsFields fs with
  | some parts => some ("\x7b" ++ joinComma parts ++ "\x7d")
  | Option.none => Option.none
| .obj _ => Option.none

/-- Serialize every element of a JSON array. -/
def dumpsElems : List PyVal → Option (List String)
| [] => some []
| v :: rest =>
  match dumps v, dumpsElems rest with
  | some s, some ss => some (s :: ss)
  | _, _ => Option.none

/-- Serialize every key/value member of a JSON object. -/
def dumpsFields : List (String × PyVal) → Option (List String)
| [] => some []
| (k, v) :: rest =>
  match dumps v, dumpsFields rest with
  | some s, some ss => some ((serializeStr k ++ ": " ++ s) :: ss)
  | _, _ => Option.none

end

example : dumps (.dict [("action", .str "init"), ("args", .dict [])])
    = some "\x7b\"action\": \"init\", \"args\": \x7b\x7d\x7d" := by rfl

/-- Resolution of one escape character after a backslash in a JSON string. -/
def unescapeChar (c : Char) : Option Char :=
  if c = '"' then some '"'
  else if c = '\\' then some '\\'
  else if c = '/' then some '/'
  else if c = 'n' then some '\n'
  else if c = 't' then some '\t'
  else if c = 'r' then some '\r'
  else if c = 'b' then some '\x08'
  else if c = 'f' then some '\x0c'
  else Option.none

/-- Parse the body of a JSON string literal after the opening quote; returns
the decoded string and the input after the closing quote. -/
def parseStrBody : List Char → Option (String × List Char)
| [] => Option.none
| c :: rest =>
  if c = '"' then some ("", rest)
  else if c = '\\' then
    match rest with
    | [] => Option.none
    | e :: rest2 =>
      match unescapeChar e with
      | some ch =>
        match parseStrBody rest2 with
        | some (s, r) => some (String.singleton ch ++ s, r)
        | Option.none => Option.none
      | Option.none => Option.none
  else
    match parseStrBody rest with
    | some (s, r) => some (String.singleton c ++ s, r)
    | Option.none => Option.none

/-- Split the longest leading run of decimal digits from the input. -/
def takeDigits : List Char → List Char × List Char
| [] => ([], [])
| c :: rest =>
  if c.isDigit then
    match takeDigits rest with
    | (ds, r) => (c :: ds, r)
  else ([], c :: rest)

/-- Numeric value of a list of decimal digit characters. -/
def digitsToNat (ds : List Char) : Nat :=
  ds.foldl (fun n c => 10 * n + (c.toNat - 48)) 0

mutual

/-- Model of the JSON parser behind json.loads: parse one JSON value from the
input, returning it with the remaining input. Fuel bounds the recursion
depth; numbers are integers (no floats, no \u escapes: the protocol lines
exercised here do not use them). -/
def parseVal : Nat → List Char → Option (PyVal × List Char)
| 0, _ => Option.none
| fuel + 1, cs =>
  match skipWs cs with
  | 'n' :: 'u' :: 'l' :: 'l' :: rest => some (.none, rest)
  | 't' :: 'r' :: 'u' :: 'e' :: rest => some (.bool true, rest)
  | 'f' :: 'a' :: 'l' :: 's' :: 'e' :: rest => some (.bool false, rest)
  | '"' :: rest =>
    match parseStrBody rest with
    | some (s, r) => some (.str s, r)
    | Option.none => Option.none
  | '[' :: rest =>
    (match skipWs rest with
     | ']' :: rest2 => some (.list [], rest2)
     | other =>
       match parseElems fuel other with
       | some (xs, r) => some (.list xs, r)
       | Option.none => Option.none)
  | '-' :: rest =>
    (match takeDigits rest with
     | ([], _) => Option.none
     | (ds, r) => some (.int (-(digitsToNat ds : Int)), r))
  | c :: rest =>
    if c = '\x7b' then
      match skipWs rest with
      | c2 :: rest2 =>
        if c2 = '\x7d' then some (.dict [], rest2)
        else
          match parseMembers fuel (c2 :: rest2) with
          | some (fs, r) => some (.dict fs, r)
          | Option.none => Option.none
      | [] => Option.none
    else if c.isDigit then
      match takeDigits (c :: rest) with
      | (ds, r) => some (.int (digitsToNat ds), r)
    else Option.none
  | [] => Option.none

/-- Parse the comma-separated elements of a JSON array up to the closing
bracket. -/
def parseElems : Nat → List Char → Option (List PyVal × List Char)
| 0, _ => Option.none
| fuel + 1, cs =>
  match parseVal fuel cs with
  | some (v, r) =>
    (match skipWs r with
     | ',' :: r2 =>
       (match parseElems fuel r2 with
        | some (xs, r3) => some (v :: xs, r3)
        | Option.none => Option.none)
     | ']' :: r2 => some ([v], r2)
     | _ => Option.none)
  | Option.none => Option.none

/-- Parse the comma-separated key/value members of a JSON object up to the
closing brace. -/
def parseMembers : Nat → List Char → Option (List (String × PyVal) × List Char)
| 0, _ => Option.none
| fuel + 1, cs =>
  match skipWs cs with
  | '"' :: rest =>
    (match parseStrBody rest with
     | some (k, r) =>
       (match skipWs r with
        | ':' :: r2 =>
          (match parseVal fuel r2 with
           | some (v, r3) =>
             (match skipWs r3 with
              | ',' :: r4 =>
                (match parseMembers fuel r4 with
                 | some (fs, r5) => some ((k, v) :: fs, r5)
                 | Option.none => Option.none)
              | c :: r4 => if c = '\x7d' then some ([(k, v)], r4) else Option.none
              | [] => Option.none)
           | Option.none => Option.none)
        | _ => Option.none)
     | Option.none => Option.none)
  | _ => Option.none

end

/-- Model of Python json.loads on one line: parse a single JSON value and
require only whitespace after it; Option.none models json.JSONDecodeError. -/
def loads (line : String) : Option PyVal :=
  match parseVal (line.length + 1) line.data with
  | some (v, rest) => if skipWs rest = [] then some v else Option.none
  | Option.none => Option.none

example : loads "\x7b\"error\": \"not found\"\x7d\n"
    = some (.dict [("error", .str "not found")]) := by rfl

example : loads "\x7b\"data\": null\x7d\n" = some (.dict [("data", .none)]) := by rfl

example : loads "\x7b\"data\": [1, -2, true]\x7d"
    = some (.dict [("data", .list [.int 1, .int (-2), .bool true])]) := by rfl

example : loads "not json\n" = Option.none := by rfl

example : loads "" = Option.none := by rfl

/-- Single-quote character, used by the Python repr of strings and by the
constructor message of hive.py (kept out of string literals). -/
def sq : String := String.singleton (Char.ofNat 39)

mutual

/-- Model of Python repr on a PyVal, as used inside str() of containers. -/
def pyRepr : PyVal → String
| .none => "None"
| .bool true => "True"
| .bool false => "False"
| .int n => intToStr n
| .str s => sq ++ s ++ sq
| .list xs => "[" ++ joinComma (pyReprElems xs) ++ "]"
| .dict fs => "\x7b" ++ joinComma (pyReprFields fs) ++ "\x7d"
| .obj t => "<object " ++ natToStr t ++ ">"

/-- Repr of each element of a Python list. -/
def pyReprElems : List PyVal → List String
| [] => []
| v :: rest => pyRepr v :: pyReprElems rest

/-- Repr of each key/value pair of a Python dict. -/
def pyReprFields : List (String × PyVal) → List String
| [] => []
| (k, v) :: rest => (sq ++ k ++ sq ++ ": " ++ pyRepr v) :: pyReprFields rest

end

/-- Model of Python str(), as the f-string in hive.py line 53 applies it to
the error payload: strings are taken verbatim, everything else falls back to
repr (which agrees with str on None, booleans and integers). -/
def pyStr : PyVal → String
| .str s => s
| v => pyRepr v

/-- Python exception kinds that can escape the methods of class Hive. -/
inductive PyError where
| runtimeError : String → PyError
| typeError : PyError
| fileNotFoundError : String → PyError
| attributeError : PyError
deriving DecidableEq

/-- Observable state of the child process handle (subprocess.Popen): whether
poll() still reports it running, and whether its stdin is open. -/
structure Process where
  alive : Bool
  stdinOpen : Bool
deriving DecidableEq

/-- State of one bridge instance: the Python object holds only the process. -/
structure Hive where
  process : Process

/-- Per-call environment: whether the write/flush to the child succeeds
(false models BrokenPipeError), and the line readline() returns afterwards
(the empty string models end of stream). -/
structure CallEnv where
  writeOk : Bool
  responseLine : String

/-- Observable outcome of one _send_command call: the returned data or the
escaping exception, the lines passed to the child's stdin, and whether the
call blocked reading the child's stdout. -/
structure SendOutcome where
  result : Except PyError PyVal
  writes : List String
  readStdout : Bool

/-- Message of the liveness-check failure (hive.py line 39). -/
def termMsg : String := "Hive Node.js process has terminated unexpectedly."

/-- Message of the broken-pipe failure (hive.py line 57). -/
def pipeMsg : String := "Hive Node.js process pipe broken."

/-- Message of the empty-response failure (hive.py line 48). -/
def closedMsg : String := "Hive Node.js process closed the connection (no response)."

/-- Leading text of the decode failure (hive.py line 59); the raw offending
line is appended to it. -/
def failedDecodeMsg : String := "Failed to decode response from Hive: "

/-- Leading text of a remote error (hive.py line 53). -/
def remoteErrMsg : String := "Hive Error: "

/-- Evaluation of `args or \x7b\x7d` (hive.py line 41): a missing or falsy
args value is replaced by the empty dict. -/
def argsOrEmpty : Option PyVal → PyVal
| Option.none => .dict []
| some v => if truthy v then v else .dict []

/-- The command envelope built on hive.py line 41. -/
def commandEnvelope (action : String) (args : Option PyVal) : PyVal :=
  .dict [("action", .str action), ("args", argsOrEmpty args)]

/-- Model of Hive._send_command (hive.py lines 34-59). Steps, in source
order: poll-based liveness check; json.dumps of the envelope (TypeError
escapes, nothing written yet); write of the line plus one newline and flush
(BrokenPipeError becomes a RuntimeError); readline; empty line becomes a
RuntimeError; json.loads (JSONDecodeError becomes a RuntimeError naming the
raw line); a truthy error field becomes a RuntimeError with the rendered
error; otherwise response.get("data") is returned. A parsed non-dict
response makes .get raise AttributeError. -/
def sendCommand (h : Hive) (action : String) (args : Option PyVal) (env : CallEnv) :
    SendOutcome :=
  if h.process.alive then
    match dumps (commandEnvelope action args) with
    | Option.none => ⟨.error .typeError, [], false⟩
    | some command =>
      if env.writeOk then
        if env.responseLine = "" then
          ⟨.error (.runtimeError closedMsg), [command ++ "\n"], true⟩
        else
          match loads env.responseLine with
          | Option.none =>
            ⟨.error (.runtimeError (failedDecodeMsg ++ env.responseLine)),
             [command ++ "\n"], true⟩
          | some (.dict fields) =>
            if truthy ((List.lookup "error" fields).getD .none) then
              ⟨.error (.runtimeError
                  (remoteErrMsg ++ pyStr ((List.lookup "error" fields).getD .none))),
               [command ++ "\n"], true⟩
            else
              ⟨.ok ((List.lookup "data" fields).getD .none), [command ++ "\n"], true⟩
          | some _ => ⟨.error .attributeError, [command ++ "\n"], true⟩
      else ⟨.error (.runtimeError pipeMsg), [command ++ "\n"], false⟩
  else ⟨.error (.runtimeError termMsg), [], false⟩

/-- Model of os.path.abspath for the path-shaping wrappers: an absolute path
is kept, a relative one is resolved against the working directory. -/
def abspath (cwd p : String) : String :=
  if p.startsWith "/" then p else cwd ++ "/" ++ p

/-- Hive.init (hive.py lines 61-68). -/
def Hive.init (h : Hive) (options : Option PyVal) (env : CallEnv) : SendOutcome :=
  sendCommand h "init" options env

/-- Hive.add_file (hive.py lines 70-74). -/
def Hive.add_file (h : Hive) (cwd file_path : String) (env : CallEnv) : SendOutcome :=
  sendCommand h "addFile" (some (.dict [("filePath", .str (abspath cwd file_path))])) env

/-- Hive.embed (hive.py lines 76-84). -/
def Hive.embed (h : Hive) (input_data type : PyVal) (env : CallEnv) : SendOutcome :=
  sendCommand h "embed" (some (.dict [("input", input_data), ("type", type)])) env

/-- Hive.find (hive.py lines 86-90). -/
def Hive.find (h : Hive) (query_vector : PyVal) (top_k : Int) (env : CallEnv) :
    SendOutcome :=
  sendCommand h "find" (some (.dict [("queryVector", query_vector), ("topK", .int top_k)])) env

/-- Hive.insert_one (hive.py lines 92-96). -/
def Hive.insert_one (h : Hive) (entry : PyVal) (env : CallEnv) : SendOutcome :=
  sendCommand h "insertOne" (some (.dict [("entry", entry)])) env

/-- Hive.delete_one (hive.py lines 98-102). -/
def Hive.delete_one (h : Hive) (id : PyVal) (env : CallEnv) : SendOutcome :=
  sendCommand h "deleteOne" (some (.dict [("id", id)])) env

/-- Hive.update_one (hive.py lines 104-108). -/
def Hive.update_one (h : Hive) (query entry : PyVal) (env : CallEnv) : SendOutcome :=
  sendCommand h "updateOne" (some (.dict [("query", query), ("entry", entry)])) env

/-- Hive.remove_file (hive.py lines 110-114). -/
def Hive.remove_file (h : Hive) (cwd file_path : String) (env : CallEnv) : SendOutcome :=
  sendCommand h "removeFile" (some (.dict [("filePath", .str (abspath cwd file_path))])) env

/-- Observable outcome of Hive.close: the state afterwards, the exception
escaping it (stdin.close, terminate and wait raise nothing, also on an
already-exited process), and whether wait() had a live process to wait on
(on an exited process it returns at once). -/
structure CloseOutcome where
  state : Hive
  raised : Option PyError
  waitedOnLiveProcess : Bool

/-- Model of Hive.close (hive.py lines 116-123): self.process is always set,
so the guard passes; stdin is closed, the process is terminated and reaped. -/
def Hive.close (h : Hive) : CloseOutcome :=
  { state := { process := { alive := false, stdinOpen := false } },
    raised := Option.none,
    waitedOnLiveProcess := h.process.alive }

/-- Environment of the constructor: which paths exist on disk, and whether
the node executable can be launched (false models FileNotFoundError from
subprocess.Popen). -/
structure InitEnv where
  fileExists : String → Bool
  nodeLaunches : Bool

/-- Observable outcome of Hive.__init__: the constructed bridge or the
escaping exception, and whether a spawn (subprocess.Popen) was attempted. -/
structure InitOutcome where
  result : Except PyError Hive
  spawnAttempted : Bool

/-- Script-path default of hive.py lines 15-17: a missing script_path falls
back to hive_cli.js next to the module itself. -/
def resolveScript (selfDir : String) (script_path : Option String) : String :=
  match script_path with
  | some p => p
  | Option.none => selfDir ++ "/hive_cli.js"

/-- Constructor message for a missing worker script (hive.py line 20). -/
def missingScriptMsg (path : String) : String :=
  "Could not find hive_cli.js at " ++ path

/-- Constructor message for an unlaunchable node executable (hive.py line 32). -/
def missingNodeMsg (node_path : String) : String :=
  "Node.js executable not found at " ++ sq ++ node_path ++ sq ++
    ". Please ensure Node.js is installed."

/-- Model of Hive.__init__ (hive.py lines 7-32): resolve the script path,
fail before any spawn when the script is absent, then attempt the spawn and
translate a Popen FileNotFoundError into the node-specific message. -/
def hiveNew (env : InitEnv) (selfDir node_path : String) (script_path : Option String) :
    InitOutcome :=
  if env.fileExists (resolveScript selfDir script_path) then
    if env.nodeLaunches then
      ⟨.ok { process := { alive := true, stdinOpen := true } }, true⟩
    else ⟨.error (.fileNotFoundError (missingNodeMsg node_path)), true⟩
  else ⟨.error (.fileNotFoundError (missingScriptMsg (resolveScript selfDir script_path))), false⟩

/-- A bridge whose child process is running: the state right after a
successful constructor. -/
def aliveHive : Hive := { process := { alive := true, stdinOpen := true } }

example : (sendCommand aliveHive "deleteOne" (some (.dict [("id", .str "x")]))
    ⟨true, "\x7b\"error\": \"not found\"\x7d\n"⟩).result
    = .error (.runtimeError "Hive Error: not found") := by rfl

example : (sendCommand aliveHive "init" Option.none ⟨true, "\x7b\"data\": null\x7d\n"⟩).writes
    = ["\x7b\"action\": \"init\", \"args\": \x7b\x7d\x7d\n"] := by rfl

/-- Membership in a concatenation of strings comes from one of the pieces. -/
theorem mem_concatAll {c : Char} : ∀ {l : List String}, c ∈ (concatAll l).data →
    ∃ s ∈ l, c ∈ s.data := by
  intro l
  induction l with
  | nil => intro h; simp [concatAll] at h
  | cons s rest ih =>
    intro h
    rw [concatAll, String.data_append] at h
    rcases List.mem_append.mp h with h1 | h2
    · exact ⟨s, List.mem_cons_self s rest, h1⟩
    · rcases ih h2 with ⟨t, ht, hc⟩
      exact ⟨t, List.mem_cons_of_mem s ht, hc⟩

/-- No escaped character produces a raw newline. -/
theorem escapeChar_no_nl (c : Char) : '\n' ∉ (escapeChar c).data := by
  rw [escapeChar]
  split_ifs with h1 h2 h3 h4 h5 h6 h7
  · decide
  · decide
  · decide
  · decide
  · decide
  · decide
  · decide
  · intro hm
    have : '\n' = c := by simpa using hm
    exact h3 (this ▸ rfl)

/-- A serialized JSON string literal contains no raw newline. -/
theorem serializeStr_no_nl (s : String) : '\n' ∉ (serializeStr s).data := by
  rw [serializeStr]
  intro hm
  rw [String.data_append, String.data_append] at hm
  rcases List.mem_append.mp hm with h | h
  · rcases List.mem_append.mp h with h1 | h2
    · simp at h1
    · rcases mem_concatAll h2 with ⟨t, ht, hc⟩
      rcases List.mem_map.mp ht with ⟨d, _, hd⟩
      exact escapeChar_no_nl d (hd ▸ hc)
  · simp at h

/-- Digit characters are never the newline character. -/
theorem digitChar_no_nl (d : Nat) : digitChar d ≠ '\n' := by
  have key : ∀ k, k < 10 → Char.ofNat (48 + k) ≠ '\n' := by decide
  rw [digitChar]
  exact key (d % 10) (Nat.mod_lt _ (by decide))

/-- The digit expansion of a natural number contains no newline. -/
theorem natDigits_no_nl : ∀ (f n : Nat), '\n' ∉ natDigits f n := by
  intro f
  induction f with
  | zero => intro n h; simp [natDigits] at h
  | succ f ih =>
    intro n h
    rw [natDigits] at h
    split at h
    · rcases List.mem_singleton.mp h with h
      exact digitChar_no_nl n h.symm
    · rcases List.mem_append.mp h with h1 | h2
      · exact ih _ h1
      · rcases List.mem_singleton.mp h2 with h2
        exact digitChar_no_nl (n % 10) h2.symm

/-- The decimal rendering of an integer contains no newline. -/
theorem intToStr_no_nl (n : Int) : '\n' ∉ (intToStr n).data := by
  rw [intToStr]
  split_ifs
  · intro h
    rw [String.data_append] at h
    rcases List.mem_append.mp h with h1 | h2
    · simp at h1
    · exact natDigits_no_nl _ _ h2
  · intro h
    exact natDigits_no_nl _ _ h

/-- Joining newline-free strings with ", " stays newline-free. -/
theorem joinComma_no_nl : ∀ (l : List String), (∀ s ∈ l, '\n' ∉ s.data) →
    '\n' ∉ (joinComma l).data
  | [] => by intro _ h; simp [joinComma] at h
  | [s] => by
    intro hall h
    rw [joinComma] at h
    exact hall s (by simp) h
  | s :: t :: rest => by
    intro hall h
    rw [joinComma, String.data_append, String.data_append] at h
    · rcases List.mem_append.mp h with h1 | h2
      · rcases List.mem_append.mp h1 with h3 | h4
        · exact hall s (by simp) h3
        · simp at h4
      · exact joinComma_no_nl (t :: rest) (fun u hu => hall u (List.mem_cons_of_mem s hu)) h2
    · simp

mutual

/-- The serialized form json.dumps produces never contains a raw newline:
every embedded string is escaped, so the envelope occupies one line. -/
theorem dumps_no_nl : ∀ (v : PyVal) (s : String), dumps v = some s → '\n' ∉ s.data
  | .none, s, h => by
    rw [dumps] at h
    rcases Option.some.inj h with h
    subst h; decide
  | .bool true, s, h => by
    rw [dumps] at h
    rcases Option.some.inj h with h
    subst h; decide
  | .bool false, s, h => by
    rw [dumps] at h
    rcases Option.some.inj h with h
    subst h; decide
  | .int n, s, h => by
    rw [dumps] at h
    rcases Option.some.inj h with h
    subst h; exact intToStr_no_nl n
  | .str t, s, h => by
    rw [dumps] at h
    rcases Option.some.inj h with h
    subst h; exact serializeStr_no_nl t
  | .list xs, s, h => by
    rw [dumps] at h
    cases hd : dumpsElems xs with
    | none => rw [hd] at h; exact absurd h (by simp)
    | some parts =>
      rw [hd] at h
      rcases Option.some.inj h with h
      subst h
      intro hm
      rw [String.data_append, String.data_append] at hm
      rcases List.mem_append.mp hm with h1 | h2
      · rcases List.mem_append.mp h1 with h3 | h4
        · simp at h3
        · exact joinComma_no_nl parts (dumpsElems_no_nl xs parts hd) h4
      · simp at h2
  | .dict fs, s, h => by
    rw [dumps] at h
    cases hd : dumpsFields fs with
    | none => rw [hd] at h; exact absurd h (by simp)
    | some parts =>
      rw [hd] at h
      rcases Option.some.inj h with h
      subst h
      intro hm
      rw [String.data_append, String.data_append] at hm
      rcases List.mem_append.mp hm with h1 | h2
      · rcases List.mem_append.mp h1 with h3 | h4
        · simp at h3
        · exact joinComma_no_nl parts (dumpsFields_no_nl fs parts hd) h4
      · simp at h2
  | .obj t, s, h => by rw [dumps] at h; exact absurd h (by simp)

/-- Every serialized array element is newline-free. -/
theorem dumpsElems_no_nl : ∀ (xs : List PyVal) (ss : List String),
    dumpsElems xs = some ss → ∀ s ∈ ss, '\n' ∉ s.data
  | [], ss, h => by
    rw [dumpsElems] at h
    rcases Option.some.inj h with h
    subst h; simp
  | v :: rest, ss, h => by
    rw [dumpsElems] at h
    cases h1 : dumps v with
    | none => rw [h1] at h; exact absurd h (by simp)
    | some s1 =>
      cases h2 : dumpsElems rest with
      | none => rw [h1, h2] at h; exact absurd h (by simp)
      | some ss1 =>
        rw [h1, h2] at h
        rcases Option.some.inj h with h
        subst h
        intro s hs
        rcases List.mem_cons.mp hs with h3 | h4
        · exact h3 ▸ dumps_no_nl v s1 h1
        · exact dumpsElems_no_nl rest ss1 h2 s h4

/-- Every serialized object member is newline-free. -/
theorem dumpsFields_no_nl : ∀ (fs : List (String × PyVal)) (ss : List String),
    dumpsFields fs = some ss → ∀ s ∈ ss, '\n' ∉ s.data
  | [], ss, h => by
    rw [dumpsFields] at h
    rcases Option.some.inj h with h
    subst h; simp
  | (k, v) :: rest, ss, h => by
    rw [dumpsFields] at h
    cases h1 : dumps v with
    | none => rw [h1] at h; exact absurd h (by simp)
    | some s1 =>
      cases h2 : dumpsFields rest with
      | none => rw [h1, h2] at h; exact absurd h (by simp)
      | some ss1 =>
        rw [h1, h2] at h
        rcases Option.some.inj h with h
        subst h
        intro s hs
        rcases List.mem_cons.mp hs with h3 | h4
        · subst h3
          intro hm
          rw [String.data_append, String.data_append] at hm
          rcases List.mem_append.mp hm with ha | hb
          · rcases List.mem_append.mp ha with hc | hd
            · exact serializeStr_no_nl k hc
            · simp at hd
          · exact dumps_no_nl v s1 h1 hb
        · exact dumpsFields_no_nl rest ss1 h2 s h4

end

/-- Two strings whose first characters differ are distinct. -/
theorem ne_of_head_ne (s t : String) (h : s.data.head? ≠ t.data.head?) : s ≠ t :=
  fun e => h (congrArg (fun x => x.data.head?) e)

/-- The head character of an append is the head of a nonempty left part. -/
theorem head_append (a b : String) (c : Char) (h : a.data.head? = some c) :
    (a ++ b).data.head? = some c := by
  rw [String.data_append]
  cases hd : a.data with
  | nil => rw [hd] at h; exact absurd h (by simp)
  | cons x xs =>
    rw [hd] at h
    simp only [List.head?] at h
    rcases Option.some.inj h with h
    simp [h]

/-- The decode-failure message never coincides with the empty-line message,
whatever the offending line: their leading characters differ. -/
theorem failedDecode_ne_closed (line : String) : failedDecodeMsg ++ line ≠ closedMsg := by
  apply ne_of_head_ne
  rw [head_append failedDecodeMsg line 'F' rfl]
  decide

/-- The missing-script message never coincides with the unlaunchable-node
message, whatever the two paths: their leading characters differ. -/
theorem missingScript_ne_missingNode (p n : String) :
    missingScriptMsg p ≠ missingNodeMsg n := by
  apply ne_of_head_ne
  simp only [missingScriptMsg, missingNodeMsg]
  rw [head_append "Could not find hive_cli.js at " p 'C' rfl]
  rw [head_append _ ". Please ensure Node.js is installed." 'N'
    (head_append _ sq 'N' (head_append _ n 'N'
      (head_append "Node.js executable not found at " sq 'N' rfl)))]
  decide

/-- Whenever the liveness check passes and the envelope serializes, one line
(the serialized envelope plus a newline) is handed to the child's stdin,
whatever happens afterwards. -/
theorem sendCommand_writes (h : Hive) (action : String) (args : Option PyVal)
    (env : CallEnv) (c : String) (halive : h.process.alive = true)
    (hser : dumps (commandEnvelope action args) = some c) :
    (sendCommand h action args env).writes = [c ++ "\n"] := by
  rw [sendCommand, halive]
  simp only [if_true, hser]
  split_ifs with hw hline
  · rfl
  · cases hl : loads env.responseLine with
    | none => simp [hl]
    | some v =>
      cases v <;> simp [hl]
      split_ifs <;> rfl
  · rfl

/-- Evaluation of _send_command past the liveness check, the serialization,
the write and the non-empty read: only the parse of the response line is
left to examine. -/
theorem sendCommand_eval (h : Hive) (action : String) (args : Option PyVal)
    (env : CallEnv) (c : String) (halive : h.process.alive = true)
    (hser : dumps (commandEnvelope action args) = some c) (hw : env.writeOk = true)
    (hne : env.responseLine ≠ "") :
    sendCommand h action args env =
      match loads env.responseLine with
      | Option.none =>
        ⟨.error (.runtimeError (failedDecodeMsg ++ env.responseLine)), [c ++ "\n"], true⟩
      | some (.dict fields) =>
        if truthy ((List.lookup "error" fields).getD .none) then
          ⟨.error (.runtimeError
              (remoteErrMsg ++ pyStr ((List.lookup "error" fields).getD .none))),
           [c ++ "\n"], true⟩
        else ⟨.ok ((List.lookup "data" fields).getD .none), [c ++ "\n"], true⟩
      | some _ => ⟨.error .attributeError, [c ++ "\n"], true⟩ := by
  rw [sendCommand, halive]
  simp only [if_true, hser, hw]
  rw [if_neg hne]

/-- A nonempty string is not Python-falsy. -/
theorem isEmpty_false_of_ne {x : String} (hx : x ≠ "") : x.isEmpty = false := by
  cases hxe : x.isEmpty with
  | true => exact absurd ((String.isEmpty_iff x).mp hxe) hx
  | false => rfl

/-- C1 (corrected). A response whose envelope carries a non-empty error
string x makes the call fail with a RuntimeError whose message is
"Hive Error: " followed by x, and the bridge is not marked terminated: any
later call on the same instance, with the child alive, passes the liveness
check and writes its command. -/
theorem remote_error_message_and_bridge_alive (h : Hive) (action : String)
    (args : Option PyVal) (env : CallEnv) (c : String)
    (fields : List (String × PyVal)) (x : String)
    (halive : h.process.alive = true)
    (hser : dumps (commandEnvelope action args) = some c)
    (hw : env.writeOk = true)
    (hne : env.responseLine ≠ "")
    (hparse : loads env.responseLine = some (.dict fields))
    (herr : List.lookup "error" fields = some (.str x))
    (hx : x ≠ "") :
    (sendCommand h action args env).result
        = .error (.runtimeError ("Hive Error: " ++ x))
    ∧ ∀ (env2 : CallEnv) (action2 : String) (args2 : Option PyVal) (c2 : String),
        dumps (commandEnvelope action2 args2) = some c2 →
        (sendCommand h action2 args2 env2).writes = [c2 ++ "\n"] := by
  constructor
  · rw [sendCommand_eval h action args env c halive hser hw hne, hparse]
    simp only [herr, Option.getD]
    have ht : truthy (PyVal.str x) = true := by
      rw [truthy, isEmpty_false_of_ne hx]
      rfl
    rw [if_pos ht]
    rfl
  · intro env2 action2 args2 c2 hser2
    exact sendCommand_writes h action2 args2 env2 c2 halive hser2

/-- C1 counterexample. The claim as stated says the failure message equals
the error string itself; the code prepends "Hive Error: ", so at the error
string "not found" the message differs from "not found". -/
theorem remote_error_message_not_bare :
    (sendCommand aliveHive "deleteOne" (some (.dict [("id", .str "x")]))
        ⟨true, "\x7b\"error\": \"not found\"\x7d\n"⟩).result
      = .error (.runtimeError "Hive Error: not found")
    ∧ "Hive Error: not found" ≠ "not found" := ⟨rfl, by decide⟩

/-- C1 witness: the amended claim at a concrete remote failure. -/
theorem remote_error_message_and_bridge_alive_witness :
    (sendCommand aliveHive "deleteOne" (some (.dict [("id", .str "x")]))
        ⟨true, "\x7b\"error\": \"not found\"\x7d\n"⟩).result
      = .error (.runtimeError ("Hive Error: " ++ "not found")) :=
  (remote_error_message_and_bridge_alive aliveHive "deleteOne"
    (some (.dict [("id", .str "x")])) ⟨true, "\x7b\"error\": \"not found\"\x7d\n"⟩
    "\x7b\"action\": \"deleteOne\", \"args\": \x7b\"id\": \"x\"\x7d\x7d"
    [("error", .str "not found")] "not found"
    rfl rfl rfl (by decide) rfl rfl (by decide)).1

/-- A dead child makes _send_command fail at the liveness check: nothing is
written and the child's stdout is never read. -/
theorem sendCommand_dead (h : Hive) (action : String) (args : Option PyVal)
    (env : CallEnv) (hdead : h.process.alive = false) :
    sendCommand h action args env = ⟨.error (.runtimeError termMsg), [], false⟩ := by
  rw [sendCommand, hdead]
  rfl

/-- An empty response line makes _send_command fail with the closed-connection
message, after the command was written. -/
theorem sendCommand_empty (h : Hive) (action : String) (args : Option PyVal)
    (env : CallEnv) (c : String) (halive : h.process.alive = true)
    (hser : dumps (commandEnvelope action args) = some c) (hw : env.writeOk = true)
    (hempty : env.responseLine = "") :
    sendCommand h action args env = ⟨.error (.runtimeError closedMsg), [c ++ "\n"], true⟩ := by
  rw [sendCommand, halive]
  simp [hser, hw, hempty]

/-- C2 (confirmed). Once a well-formed response envelope is read (its error
field, when present, is a string), the call fails iff that error field is
present and non-empty; otherwise the data field (PyVal.none when absent or
null) is returned, and a failure carries the error string after
"Hive Error: ". -/
theorem call_fails_iff_error_nonempty (h : Hive) (action : String)
    (args : Option PyVal) (env : CallEnv) (c : String)
    (fields : List (String × PyVal))
    (halive : h.process.alive = true)
    (hser : dumps (commandEnvelope action args) = some c)
    (hw : env.writeOk = true)
    (hne : env.responseLine ≠ "")
    (hparse : loads env.responseLine = some (.dict fields))
    (hwf : ∀ v, List.lookup "error" fields = some v → ∃ s, v = PyVal.str s) :
    ((∃ msg, (sendCommand h action args env).result = .error (.runtimeError msg)) ↔
        ∃ s, List.lookup "error" fields = some (.str s) ∧ s ≠ "")
    ∧ ((∀ s, List.lookup "error" fields = some (.str s) → s = "") →
        (sendCommand h action args env).result
          = .ok ((List.lookup "data" fields).getD .none))
    ∧ (∀ s, List.lookup "error" fields = some (.str s) → s ≠ "" →
        (sendCommand h action args env).result
          = .error (.runtimeError ("Hive Error: " ++ s))) := by
  have he2 : sendCommand h action args env =
      (if truthy ((List.lookup "error" fields).getD .none) then
        (⟨.error (.runtimeError
            (remoteErrMsg ++ pyStr ((List.lookup "error" fields).getD .none))),
          [c ++ "\n"], true⟩ : SendOutcome)
      else ⟨.ok ((List.lookup "data" fields).getD .none), [c ++ "\n"], true⟩) := by
    rw [sendCommand_eval h action args env c halive hser hw hne, hparse]
  cases hl : List.lookup "error" fields with
  | none =>
    rw [hl] at he2
    have hres : (sendCommand h action args env).result
        = .ok ((List.lookup "data" fields).getD .none) := by
      rw [he2]
      rfl
    refine ⟨⟨?_, ?_⟩, fun _ => hres, ?_⟩
    · rintro ⟨msg, hmsg⟩
      rw [hres] at hmsg
      exact absurd hmsg (by simp)
    · rintro ⟨s, hs, _⟩
      exact absurd hs (by simp)
    · intro s hs
      exact absurd hs (by simp)
  | some v =>
    obtain ⟨s, rfl⟩ := hwf v hl
    rw [hl] at he2
    simp only [Option.getD_some] at he2
    by_cases hs : s = ""
    · subst hs
      have hres : (sendCommand h action args env).result
          = .ok ((List.lookup "data" fields).getD .none) := by
        rw [he2]
        rfl
      refine ⟨⟨?_, ?_⟩, fun _ => hres, ?_⟩
      · rintro ⟨msg, hmsg⟩
        rw [hres] at hmsg
        exact absurd hmsg (by simp)
      · rintro ⟨s2, hs2, hne2⟩
        injection hs2 with h1
        injection h1 with h2
        exact absurd h2.symm hne2
      · intro s2 hs2 hne2
        injection hs2 with h1
        injection h1 with h2
        exact absurd h2.symm hne2
    · have ht : truthy (PyVal.str s) = true := by
        rw [truthy, isEmpty_false_of_ne hs]
        rfl
      rw [if_pos ht] at he2
      have hres : (sendCommand h action args env).result
          = .error (.runtimeError ("Hive Error: " ++ s)) := by
        rw [he2]
        rfl
      refine ⟨⟨fun _ => ⟨s, rfl, hs⟩, fun _ => ⟨"Hive Error: " ++ s, hres⟩⟩, ?_, ?_⟩
      · intro hall
        exact absurd (hall s rfl) hs
      · intro s2 hs2 _
        injection hs2 with h1
        injection h1 with h2
        rw [← h2]
        exact hres

/-- C2 witness: the response line holding only a null data field yields the
success payload PyVal.none, not an error. -/
theorem call_fails_iff_error_nonempty_witness :
    (sendCommand aliveHive "init" Option.none
        ⟨true, "\x7b\"data\": null\x7d\n"⟩).result = .ok PyVal.none :=
  (call_fails_iff_error_nonempty aliveHive "init" Option.none
    ⟨true, "\x7b\"data\": null\x7d\n"⟩
    "\x7b\"action\": \"init\", \"args\": \x7b\x7d\x7d"
    [("data", PyVal.none)]
    rfl rfl rfl (by decide) rfl
    (fun v hv => Option.noConfusion hv)).2.1
    (fun s hs => Option.noConfusion hs)

/-- C3 (confirmed). An empty response line fails the call with the
closed-connection message, yet a later call on the same instance passes the
liveness check and writes its command whenever the child is alive; only a
dead child blocks a call, before anything is written or read. -/
theorem empty_line_failure_not_terminal (h : Hive) (action : String)
    (args : Option PyVal) (env : CallEnv) (c : String)
    (halive : h.process.alive = true)
    (hser : dumps (commandEnvelope action args) = some c)
    (hw : env.writeOk = true)
    (hempty : env.responseLine = "") :
    (sendCommand h action args env).result = .error (.runtimeError closedMsg)
    ∧ (∀ (env2 : CallEnv) (action2 : String) (args2 : Option PyVal) (c2 : String),
        dumps (commandEnvelope action2 args2) = some c2 →
        (sendCommand h action2 args2 env2).writes = [c2 ++ "\n"])
    ∧ (∀ (h2 : Hive) (action3 : String) (args3 : Option PyVal) (env3 : CallEnv),
        h2.process.alive = false →
        (sendCommand h2 action3 args3 env3).result = .error (.runtimeError termMsg)
        ∧ (sendCommand h2 action3 args3 env3).writes = []
        ∧ (sendCommand h2 action3 args3 env3).readStdout = false) := by
  refine ⟨?_, ?_, ?_⟩
  · rw [sendCommand_empty h action args env c halive hser hw hempty]
  · intro env2 action2 args2 c2 hser2
    exact sendCommand_writes h action2 args2 env2 c2 halive hser2
  · intro h2 action3 args3 env3 hdead
    rw [sendCommand_dead h2 action3 args3 env3 hdead]
    exact ⟨rfl, rfl, rfl⟩

/-- C3 witness: a concrete call receiving an empty line fails with the
closed-connection message. -/
theorem empty_line_failure_not_terminal_witness :
    (sendCommand aliveHive "embed"
        (some (.dict [("input", .str "hello"), ("type", .str "text")]))
        ⟨true, ""⟩).result = .error (.runtimeError closedMsg) :=
  (empty_line_failure_not_terminal aliveHive "embed"
    (some (.dict [("input", .str "hello"), ("type", .str "text")])) ⟨true, ""⟩
    "\x7b\"action\": \"embed\", \"args\": \x7b\"input\": \"hello\", \"type\": \"text\"\x7d\x7d"
    rfl rfl rfl rfl).1

/-- C4 (confirmed). When the envelope has no JSON representation, the call
fails with TypeError — a kind distinct from every RuntimeError the bridge
raises for process or protocol failures — and nothing is written to the
child, nothing read from it. -/
theorem encoding_failure_before_write (h : Hive) (action : String)
    (args : Option PyVal) (env : CallEnv)
    (halive : h.process.alive = true)
    (hbad : dumps (commandEnvelope action args) = Option.none) :
    (sendCommand h action args env).result = .error .typeError
    ∧ (sendCommand h action args env).writes = []
    ∧ (sendCommand h action args env).readStdout = false
    ∧ ∀ msg, PyError.typeError ≠ PyError.runtimeError msg := by
  have he : sendCommand h action args env = ⟨.error .typeError, [], false⟩ := by
    rw [sendCommand, halive]
    simp [hbad]
  rw [he]
  exact ⟨rfl, rfl, rfl, fun msg h => PyError.noConfusion h⟩

/-- C4 witness: an args dict holding a non-serializable Python object makes
the concrete call fail with TypeError before any write. -/
theorem encoding_failure_before_write_witness :
    (sendCommand aliveHive "insertOne" (some (.dict [("entry", .obj 0)]))
        ⟨true, "\x7b\"data\": null\x7d\n"⟩).result = .error .typeError
    ∧ (sendCommand aliveHive "insertOne" (some (.dict [("entry", .obj 0)]))
        ⟨true, "\x7b\"data\": null\x7d\n"⟩).writes = [] :=
  ⟨(encoding_failure_before_write aliveHive "insertOne"
      (some (.dict [("entry", .obj 0)])) ⟨true, "\x7b\"data\": null\x7d\n"⟩ rfl rfl).1,
   (encoding_failure_before_write aliveHive "insertOne"
      (some (.dict [("entry", .obj 0)])) ⟨true, "\x7b\"data\": null\x7d\n"⟩ rfl rfl).2.1⟩

/-- C5 (confirmed). A missing worker script fails the constructor before any
spawn is attempted, and with a message distinct from the one raised when the
script exists but the node executable cannot be launched. -/
theorem missing_script_fails_before_spawn (env : InitEnv)
    (selfDir node_path : String) (script_path : Option String)
    (hmiss : env.fileExists (resolveScript selfDir script_path) = false) :
    (hiveNew env selfDir node_path script_path).result
        = .error (.fileNotFoundError (missingScriptMsg (resolveScript selfDir script_path)))
    ∧ (hiveNew env selfDir node_path script_path).spawnAttempted = false
    ∧ (∀ env2 : InitEnv, env2.fileExists (resolveScript selfDir script_path) = true →
        env2.nodeLaunches = false →
        (hiveNew env2 selfDir node_path script_path).result
          = .error (.fileNotFoundError (missingNodeMsg node_path)))
    ∧ missingScriptMsg (resolveScript selfDir script_path) ≠ missingNodeMsg node_path := by
  refine ⟨?_, ?_, ?_, missingScript_ne_missingNode _ _⟩
  · rw [hiveNew, hmiss]
    rfl
  · rw [hiveNew, hmiss]
    rfl
  · intro env2 hx hn
    rw [hiveNew, hx, hn]
    rfl

/-- C5 witness: constructing against a filesystem with no files fails with
the missing-script message and no spawn attempt. -/
theorem missing_script_fails_before_spawn_witness :
    (hiveNew ⟨fun _ => false, true⟩ "/opt/hive" "node" Option.none).result
        = .error (.fileNotFoundError (missingScriptMsg "/opt/hive/hive_cli.js"))
    ∧ (hiveNew ⟨fun _ => false, true⟩ "/opt/hive" "node" Option.none).spawnAttempted
        = false :=
  ⟨(missing_script_fails_before_spawn ⟨fun _ => false, true⟩ "/opt/hive" "node"
      Option.none rfl).1,
   (missing_script_fails_before_spawn ⟨fun _ => false, true⟩ "/opt/hive" "node"
      Option.none rfl).2.1⟩

/-- C6 (confirmed). After close() the child is reaped, so every operation
fails at the pre-write liveness check with the terminated message: nothing
is written to the dead child and its stdout is never read (the call cannot
block there). -/
theorem operations_after_close_fail_fast (h : Hive) (env : CallEnv)
    (options : Option PyVal) (cwd p1 p2 : String)
    (input_data type query_vector entry ident query entry2 : PyVal) (top_k : Int) :
    ((Hive.init (Hive.close h).state options env).result
        = .error (.runtimeError termMsg)
      ∧ (Hive.init (Hive.close h).state options env).writes = []
      ∧ (Hive.init (Hive.close h).state options env).readStdout = false)
    ∧ ((Hive.add_file (Hive.close h).state cwd p1 env).result
        = .error (.runtimeError termMsg)
      ∧ (Hive.add_file (Hive.close h).state cwd p1 env).writes = []
      ∧ (Hive.add_file (Hive.close h).state cwd p1 env).readStdout = false)
    ∧ ((Hive.embed (Hive.close h).state input_data type env).result
        = .error (.runtimeError termMsg)
      ∧ (Hive.embed (Hive.close h).state input_data type env).writes = []
      ∧ (Hive.embed (Hive.close h).state input_data type env).readStdout = false)
    ∧ ((Hive.find (Hive.close h).state query_vector top_k env).result
        = .error (.runtimeError termMsg)
      ∧ (Hive.find (Hive.close h).state query_vector top_k env).writes = []
      ∧ (Hive.find (Hive.close h).state query_vector top_k env).readStdout = false)
    ∧ ((Hive.insert_one (Hive.close h).state entry env).result
        = .error (.runtimeError termMsg)
      ∧ (Hive.insert_one (Hive.close h).state entry env).writes = []
      ∧ (Hive.insert_one (Hive.close h).state entry env).readStdout = false)
    ∧ ((Hive.delete_one (Hive.close h).state ident env).result
        = .error (.runtimeError termMsg)
      ∧ (Hive.delete_one (Hive.close h).state ident env).writes = []
      ∧ (Hive.delete_one (Hive.close h).state ident env).readStdout = false)
    ∧ ((Hive.update_one (Hive.close h).state query entry2 env).result
        = .error (.runtimeError termMsg)
      ∧ (Hive.update_one (Hive.close h).state query entry2 env).writes = []
      ∧ (Hive.update_one (Hive.close h).state query entry2 env).readStdout = false)
    ∧ ((Hive.remove_file (Hive.close h).state cwd p2 env).result
        = .error (.runtimeError termMsg)
      ∧ (Hive.remove_file (Hive.close h).state cwd p2 env).writes = []
      ∧ (Hive.remove_file (Hive.close h).state cwd p2 env).readStdout = false) :=
  ⟨⟨rfl, rfl, rfl⟩, ⟨rfl, rfl, rfl⟩, ⟨rfl, rfl, rfl⟩, ⟨rfl, rfl, rfl⟩,
   ⟨rfl, rfl, rfl⟩, ⟨rfl, rfl, rfl⟩, ⟨rfl, rfl, rfl⟩, ⟨rfl, rfl, rfl⟩⟩

/-- C7 (confirmed). close() is idempotent: a second close leaves the state
unchanged, raises nothing (stdin.close, terminate and wait are no-ops on an
exited process), and has no live process to block waiting on. -/
theorem close_twice_noop (h : Hive) :
    (Hive.close (Hive.close h).state).state = (Hive.close h).state
    ∧ (Hive.close (Hive.close h).state).raised = Option.none
    ∧ (Hive.close (Hive.close h).state).waitedOnLiveProcess = false :=
  ⟨rfl, rfl, rfl⟩

/-- C8 (confirmed). A non-empty response line that is not well-formed JSON
fails the call with a message carrying the raw offending line, and that
message never coincides with the empty-line (closed-connection) message. -/
theorem malformed_line_failure_carries_line (h : Hive) (action : String)
    (args : Option PyVal) (env : CallEnv) (c : String)
    (halive : h.process.alive = true)
    (hser : dumps (commandEnvelope action args) = some c)
    (hw : env.writeOk = true)
    (hne : env.responseLine ≠ "")
    (hbad : loads env.responseLine = Option.none) :
    (sendCommand h action args env).result
        = .error (.runtimeError (failedDecodeMsg ++ env.responseLine))
    ∧ failedDecodeMsg ++ env.responseLine ≠ closedMsg := by
  constructor
  · rw [sendCommand_eval h action args env c halive hser hw hne, hbad]
  · exact failedDecode_ne_closed env.responseLine

/-- C8 witness: a concrete garbage line is reported back inside the decode
failure message. -/
theorem malformed_line_failure_carries_line_witness :
    (sendCommand aliveHive "find"
        (some (.dict [("queryVector", .list [.int 1, .int 2]), ("topK", .int 10)]))
        ⟨true, "not json\n"⟩).result
      = .error (.runtimeError (failedDecodeMsg ++ "not json\n")) :=
  (malformed_line_failure_carries_line aliveHive "find"
    (some (.dict [("queryVector", .list [.int 1, .int 2]), ("topK", .int 10)]))
    ⟨true, "not json\n"⟩
    "\x7b\"action\": \"find\", \"args\": \x7b\"queryVector\": [1, 2], \"topK\": 10\x7d\x7d"
    rfl rfl rfl (by decide) rfl).1

/-- C9 (confirmed). The transmitted command is one line: the serialized
envelope contains no newline character and the line written is the envelope
followed by exactly one newline. -/
theorem command_is_single_line (h : Hive) (action : String) (args : Option PyVal)
    (env : CallEnv) (c : String)
    (halive : h.process.alive = true)
    (hser : dumps (commandEnvelope action args) = some c)
    (hw : env.writeOk = true) :
    (sendCommand h action args env).writes = [c ++ "\n"]
    ∧ c.data.count '\n' = 0
    ∧ (c ++ "\n").data.count '\n' = 1 := by
  have hz : c.data.count '\n' = 0 :=
    List.count_eq_zero.mpr (dumps_no_nl (commandEnvelope action args) c hser)
  refine ⟨sendCommand_writes h action args env c halive hser, hz, ?_⟩
  rw [String.data_append, List.count_append, hz]
  rfl

/-- C9 witness: an embed command at concrete arguments. -/
theorem command_is_single_line_witness :
    (sendCommand aliveHive "embed"
        (some (.dict [("input", .str "hello"), ("type", .str "text")]))
        ⟨true, "\x7b\"data\": [1]\x7d\n"⟩).writes
      = ["\x7b\"action\": \"embed\", \"args\": \x7b\"input\": \"hello\", \"type\": \"text\"\x7d\x7d"
          ++ "\n"]
    ∧ ("\x7b\"action\": \"embed\", \"args\": \x7b\"input\": \"hello\", \"type\": \"text\"\x7d\x7d"
        ++ "\n").data.count '\n' = 1 :=
  ⟨(command_is_single_line aliveHive "embed"
      (some (.dict [("input", .str "hello"), ("type", .str "text")]))
      ⟨true, "\x7b\"data\": [1]\x7d\n"⟩
      "\x7b\"action\": \"embed\", \"args\": \x7b\"input\": \"hello\", \"type\": \"text\"\x7d\x7d"
      rfl rfl rfl).1,
   (command_is_single_line aliveHive "embed"
      (some (.dict [("input", .str "hello"), ("type", .str "text")]))
      ⟨true, "\x7b\"data\": [1]\x7d\n"⟩
      "\x7b\"action\": \"embed\", \"args\": \x7b\"input\": \"hello\", \"type\": \"text\"\x7d\x7d"
      rfl rfl rfl).2.2⟩

/-- C10 (confirmed). A missing or falsy args value is transmitted as the
empty mapping: the envelope built is exactly the action with empty args, the
line written serializes that envelope, and for every args a wrapper can pass
(no args, or a dict) the envelope args field is a mapping, never null. -/
theorem falsy_args_become_empty_mapping (h : Hive) (action : String)
    (args : Option PyVal) (env : CallEnv)
    (halive : h.process.alive = true)
    (hfalsy : args = Option.none ∨ ∃ v, args = some v ∧ truthy v = false) :
    commandEnvelope action args
        = .dict [("action", .str action), ("args", .dict [])]
    ∧ (∃ c2, dumps (commandEnvelope action args) = some c2
        ∧ (sendCommand h action args env).writes = [c2 ++ "\n"])
    ∧ (∀ args2 : Option PyVal,
        (args2 = Option.none ∨ ∃ m, args2 = some (.dict m)) →
        ∃ m2, commandEnvelope action args2
          = .dict [("action", .str action), ("args", .dict m2)]) := by
  have henv : commandEnvelope action args
      = .dict [("action", .str action), ("args", .dict [])] := by
    rcases hfalsy with h1 | ⟨v, hv, htr⟩
    · subst h1
      rfl
    · subst hv
      simp [commandEnvelope, argsOrEmpty, htr]
  refine ⟨henv, ?_, ?_⟩
  · have hser2 : ∃ cc, dumps (commandEnvelope action args) = some cc := by
      rw [henv]
      exact ⟨_, rfl⟩
    obtain ⟨cc, hcc⟩ := hser2
    exact ⟨cc, hcc, sendCommand_writes h action args env cc halive hcc⟩
  · intro args2 h2
    rcases h2 with h2 | ⟨m, hm⟩
    · subst h2
      exact ⟨[], rfl⟩
    · subst hm
      cases htr : truthy (.dict m) with
      | true => exact ⟨m, by simp [commandEnvelope, argsOrEmpty, htr]⟩
      | false => exact ⟨[], by simp [commandEnvelope, argsOrEmpty, htr]⟩

/-- C10 witness: init with the falsy options dict sends empty args. -/
theorem falsy_args_become_empty_mapping_witness :
    commandEnvelope "init" (some (.dict []))
      = .dict [("action", .str "init"), ("args", .dict [])] :=
  (falsy_args_become_empty_mapping aliveHive "init" (some (.dict []))
    ⟨true, "\x7b\"data\": null\x7d\n"⟩ rfl (Or.inr ⟨.dict [], rfl, rfl⟩)).1

end HiveBridge
